import Mathlib

/-!
# Verification of the precatório ingestion pipeline

Shallow embedding of the ETL pipeline in `backend/app` (worker.py,
consultas.py, main.py, models.py): CNJ-number formatting, list chunking,
the retrying fetch client, monetary/date field coercion, the persistence
mapper `salvar_processo`, and the batch orchestrator `processar_lote`.

Conventions used throughout:
* Python strings are `String` / `List Char`; Python `None` is `Option.none`.
* Python dicts fetched from the API are mirrored by structures whose fields
  are `Option`-typed (absent key / JSON null ↦ `none`).
* Python exceptions are `Except String`; a caught-and-recovered exception is
  an `Option`/branch, an uncaught one is `Except.error`.
* Monetary values parse into `ℚ` (the decimal value denoted by the text),
  python `float` rounding is not modelled (all claim inputs are exact).
* `str.isdigit` and `Char.isDigit` are identified (ASCII model of Python's
  Unicode-aware predicate).
-/

namespace RecallApis

/-! ## Small pieces of the Python standard library used by the code -/

/-- Digit value of an ASCII digit character. -/
def digitVal (c : Char) : ℕ := c.toNat - 48

/-- Value of a string of ASCII digits read in base 10 (`int`-style). -/
def natDigits (cs : List Char) : ℕ := cs.foldl (fun a c => 10 * a + digitVal c) 0

/-- The whitespace characters stripped by Python's `str.strip()` (ASCII part). -/
def pyIsSpace (c : Char) : Bool :=
  c = ' ' || c = '\t' || c = '\n' || c = '\x0d' || c = '\x0b' || c = '\x0c'

/-- Python's `str.strip()`: drop whitespace from both ends. -/
def pyStrip (s : List Char) : List Char :=
  ((s.dropWhile pyIsSpace).reverse.dropWhile pyIsSpace).reverse

/-- Python's `str.replace("R$", "")` as used in main.py line 245.
    Leftmost-first scanning; replaced text is not rescanned. -/
def removeRS : List Char → List Char
  | [] => []
  | [c] => [c]
  | c :: d :: rest =>
      if c = 'R' ∧ d = '$' then removeRS rest
      else c :: removeRS (d :: rest)

/-- Python's `str.replace(".", "")` as used in main.py line 245. -/
def removeDots : List Char → List Char
  | [] => []
  | c :: rest => if c = '.' then removeDots rest else c :: removeDots rest

/-- Python's `str.replace(",", ".")` as used in main.py line 245. -/
def commaToDot : List Char → List Char
  | [] => []
  | c :: rest =>
      if c = ',' then '.' :: commaToDot rest else c :: commaToDot rest

/-- Core of Python's `float(...)` on an unsigned literal: decimal digits with
    an optional single fraction dot (`"12"`, `"12."`, `".5"`, `"12.34"`).
    Exponents, `inf`/`nan` and `_` separators are not modelled (no claim
    exercises them). Returns the exact decimal value. -/
def pyFloatCore (cs : List Char) : Option ℚ :=
  let ip := cs.takeWhile (· ≠ '.')
  let rest := cs.dropWhile (· ≠ '.')
  if rest.isEmpty then
    if !ip.isEmpty && ip.all Char.isDigit then some (natDigits ip) else none
  else
    let frac := rest.tail
    if ip.all Char.isDigit && frac.all Char.isDigit
        && (!ip.isEmpty || !frac.isEmpty) then
      some ((natDigits ip : ℚ) + (natDigits frac : ℚ) / (10 : ℚ) ^ frac.length)
    else none

/-- Python's `float(str)`: strip whitespace, optional sign, decimal literal;
    raises (here: `none`) on anything else. -/
def pyFloat (cs0 : List Char) : Option ℚ :=
  let cs := pyStrip cs0
  if cs.head? = some '+' then pyFloatCore cs.tail
  else if cs.head? = some '-' then (pyFloatCore cs.tail).map (fun q => -q)
  else pyFloatCore cs

/-! ### `datetime.strptime(s, "%Y-%m-%d")` and `datetime.fromisoformat` -/

/-- A Python `datetime.date`. -/
structure PyDate where
  year : ℕ
  month : ℕ
  day : ℕ
deriving DecidableEq, Repr

/-- A Python `datetime.datetime` (fractional seconds and tzinfo omitted). -/
structure PyDateTime where
  year : ℕ
  month : ℕ
  day : ℕ
  hour : ℕ
  minute : ℕ
  second : ℕ
deriving DecidableEq, Repr

/-- Gregorian leap-year rule used by `datetime`. -/
def isLeapYear (y : ℕ) : Bool := y % 4 == 0 && (y % 100 != 0 || y % 400 == 0)

/-- Number of days in a month, as validated by the `datetime` constructors. -/
def daysInMonth (y m : ℕ) : ℕ :=
  if m = 2 then (if isLeapYear y then 29 else 28)
  else if m = 4 ∨ m = 6 ∨ m = 9 ∨ m = 11 then 30
  else 31

/-- CPython `_strptime` directive `%Y`: exactly four digits. -/
def take4Year : List Char → Option (ℕ × List Char)
  | a :: b :: c :: d :: rest =>
      if a.isDigit && b.isDigit && c.isDigit && d.isDigit then
        some (digitVal a * 1000 + digitVal b * 100 + digitVal c * 10 + digitVal d, rest)
      else none
  | _ => none

/-- CPython `_strptime` directive `%m`: regex `1[0-2]|0[1-9]|[1-9]`. -/
def parseMonth2 : List Char → Option (ℕ × List Char)
  | [] => none
  | [c] => if '1' ≤ c ∧ c ≤ '9' then some (digitVal c, []) else none
  | c :: d :: rest =>
      if c = '1' ∧ ('0' ≤ d ∧ d ≤ '2') then some (10 + digitVal d, rest)
      else if c = '0' ∧ ('1' ≤ d ∧ d ≤ '9') then some (digitVal d, rest)
      else if '1' ≤ c ∧ c ≤ '9' then some (digitVal c, d :: rest)
      else none

/-- CPython `_strptime` directive `%d`: regex `3[01]|[12]\d|0[1-9]|[1-9]`. -/
def parseDay2 : List Char → Option (ℕ × List Char)
  | [] => none
  | [c] => if '1' ≤ c ∧ c ≤ '9' then some (digitVal c, []) else none
  | c :: d :: rest =>
      if c = '3' ∧ (d = '0' ∨ d = '1') then some (30 + digitVal d, rest)
      else if (c = '1' ∨ c = '2') ∧ d.isDigit then some (digitVal c * 10 + digitVal d, rest)
      else if c = '0' ∧ ('1' ≤ d ∧ d ≤ '9') then some (digitVal d, rest)
      else if '1' ≤ c ∧ c ≤ '9' then some (digitVal c, d :: rest)
      else none

/-- `datetime.strptime(s, "%Y-%m-%d").date()`: full-match of the pattern,
    then calendar validation by the `date` constructor (`ValueError` ↦ `none`). -/
def strptime_Ymd (s : String) : Option PyDate :=
  match take4Year s.toList with
  | some (y, '-' :: r1) =>
      match parseMonth2 r1 with
      | some (m, '-' :: r2) =>
          match parseDay2 r2 with
          | some (d, []) =>
              if 1 ≤ y ∧ d ≤ daysInMonth y m then some ⟨y, m, d⟩ else none
          | _ => none
      | _ => none
  | _ => none

/-- Two decimal digits. -/
def take2Digits : List Char → Option (ℕ × List Char)
  | a :: b :: rest =>
      if a.isDigit && b.isDigit then some (digitVal a * 10 + digitVal b, rest) else none
  | _ => none

/-- `datetime.fromisoformat`: strict `YYYY-MM-DD`, optionally followed by a
    one-character separator and `HH:MM[:SS]`. Fractional seconds and UTC
    offsets are not modelled (no claim exercises them). -/
def fromisoformat (s : String) : Option PyDateTime :=
  match take4Year s.toList with
  | some (y, '-' :: r1) =>
      match take2Digits r1 with
      | some (m, '-' :: r2) =>
          match take2Digits r2 with
          | some (d, rest) =>
              if 1 ≤ y ∧ 1 ≤ m ∧ m ≤ 12 ∧ 1 ≤ d ∧ d ≤ daysInMonth y m then
                match rest with
                | [] => some ⟨y, m, d, 0, 0, 0⟩
                | _sep :: tr =>
                    match take2Digits tr with
                    | some (hh, ':' :: tr2) =>
                        match take2Digits tr2 with
                        | some (mm, []) =>
                            if hh ≤ 23 ∧ mm ≤ 59 then some ⟨y, m, d, hh, mm, 0⟩ else none
                        | some (mm, ':' :: tr3) =>
                            match take2Digits tr3 with
                            | some (ss, []) =>
                                if hh ≤ 23 ∧ mm ≤ 59 ∧ ss ≤ 59 then
                                  some ⟨y, m, d, hh, mm, ss⟩
                                else none
                            | _ => none
                        | _ => none
                    | _ => none
              else none
          | _ => none
      | _ => none
  | _ => none

/-! ## main.py: `formatar_cnj` (lines 49-56) -/

/-- Python `str.isdigit` (ASCII model): nonempty and all decimal digits. -/
def pyIsdigit (s : String) : Bool := !(s == "") && s.toList.all Char.isDigit

/-- main.py lines 49-56.  The argument is `Option String` so that the Python
    `None` input (falsy, returned as-is) is representable. -/
def formatar_cnj (numero : Option String) : Option String :=
  match numero with
  | none => none
  | some s =>
      if s == "" || !pyIsdigit s || s.length != 20 then some s
      else
        let cs := s.toList
        some (String.mk (cs.take 7) ++ "-" ++ String.mk ((cs.drop 7).take 2) ++ "."
          ++ String.mk ((cs.drop 9).take 4) ++ "." ++ String.mk ((cs.drop 13).take 1) ++ "."
          ++ String.mk ((cs.drop 14).take 2) ++ "." ++ String.mk (cs.drop 16))

/-! ## Chunking (main.py `chunks`, lines 147-150 / 175-178, and the
    slicing loops in worker.py line 264-265 and main.py lines 131-133) -/

/-- `for i in range(0, len(lst), n): yield lst[i:i+n]` — the `k`-th slice
    starts at `k*n`; `range(0, t, n)` has `⌈t/n⌉` elements. -/
def chunks {α : Type} (lst : List α) (n : ℕ) : List (List α) :=
  (List.range ((lst.length + n - 1) / n)).map (fun k => (lst.drop (k * n)).take n)

/-! ## consultas.py: the fetch client `consultar_numero` (lines 14-27) -/

/-- Outcome of one HTTP attempt: a response with a status code and body,
    or a transport-level error (timeout, connection failure, ...). -/
inductive HttpResp where
  | resp (status : ℕ) (body : String)
  | transportError (msg : String)
deriving DecidableEq, Repr

/-- The body of `consultar_numero` for one attempt (consultas.py lines 23-27):
    non-200 statuses raise `Exception(f"Erro HTTP {status} para {numero}")`,
    a 200 returns the JSON body. -/
def tentativa (numero : String) (r : HttpResp) : Except String String :=
  match r with
  | .transportError m => .error m
  | .resp status body =>
      if status != 200 then
        .error ("Erro HTTP " ++ toString status ++ " para " ++ numero)
      else .ok body

/-- tenacity's `wait_exponential(multiplier, min, max)` after a failed
    attempt number `n`: `max(min, min(multiplier * 2^n, max))`. -/
def wait_exponential (multiplier mn mx n : ℕ) : ℕ :=
  max mn (min (multiplier * 2 ^ n) mx)

/-- tenacity retry driver: run attempt `attempt`; on failure, if `fuel`
    further attempts remain (`fuel = stop_after_attempt - attempt`), record
    the backoff wait and retry.  Returns the final outcome and the list of
    waits slept between attempts. -/
def tenacityGo (oracle : ℕ → HttpResp) (numero : String) :
    ℕ → ℕ → Except String String × List ℕ
  | attempt, fuel =>
      match tentativa numero (oracle attempt) with
      | .ok v => (.ok v, [])
      | .error e =>
          match fuel with
          | 0 => (.error e, [])
          | fuel' + 1 =>
              let w := wait_exponential 1 2 10 attempt
              let r := tenacityGo oracle numero (attempt + 1) fuel'
              (r.1, w :: r.2)

/-- consultas.py lines 14-27: `@retry(stop=stop_after_attempt(3),
    wait=wait_exponential(multiplier=1, min=2, max=10),
    retry=retry_if_exception_type(Exception))`.  The `oracle` gives the
    network's answer to attempt number `n` (starting at 1). -/
def consultar_numero (oracle : ℕ → HttpResp) (numero : String) :
    Except String String × List ℕ :=
  tenacityGo oracle numero 1 2

/-! ## The fetched case record (nested JSON read by `salvar_processo`)

One structure per nested dict, with exactly the keys worker.py reads.
`Option` models an absent key or a JSON null; `Option (List _)` models the
`x.get(k) or []` idiom. -/

/-- `data["estado_origem"]` is either a dict with a `sigla` key or a plain
    string (worker.py lines 57-61 branch on `isinstance(..., dict)`). -/
inductive EstadoOrigemData where
  | strv (s : String)
  | dictv (sigla : Option String)
deriving DecidableEq, Repr

structure UnidadeOrigemData where
  nome : Option String := none
  cidade : Option String := none
  estado : Option String := none
  tribunal_sigla : Option String := none
deriving DecidableEq, Repr

structure OabData where
  uf : Option String := none
  tipo : Option String := none
  numero : Option Int := none
deriving DecidableEq, Repr

structure AdvogadoData where
  nome : Option String := none
  quantidade_processos : Option Int := none
  tipo : Option String := none
  tipo_normalizado : Option String := none
  polo : Option String := none
  cpf : Option String := none
  cnpj : Option String := none
  prefixo : Option String := none
  sufixo : Option String := none
  oabs : Option (List OabData) := none
deriving DecidableEq, Repr

structure EnvolvidoData where
  nome : Option String := none
  quantidade_processos : Option Int := none
  tipo_pessoa : Option String := none
  tipo : Option String := none
  tipo_normalizado : Option String := none
  polo : Option String := none
  cpf : Option String := none
  cnpj : Option String := none
  prefixo : Option String := none
  sufixo : Option String := none
  advogados : Option (List AdvogadoData) := none
deriving DecidableEq, Repr

structure AudienciaData where
  data_audiencia : Option String := none
  descricao : Option String := none
deriving DecidableEq, Repr

structure ValorCausaData where
  valor : Option String := none
  moeda : Option String := none
  valor_formatado : Option String := none
deriving DecidableEq, Repr

structure InformacaoComplementarData where
  tipo : Option String := none
  valor : Option String := none
deriving DecidableEq, Repr

structure CapaData where
  classe : Option String := none
  assunto : Option String := none
  assuntos_normalizados : Option String := none
  assunto_principal_normalizado : Option String := none
  area : Option String := none
  orgao_julgador : Option String := none
  situacao : Option String := none
  data_distribuicao : Option String := none
  data_arquivamento : Option String := none
  valor_causa : Option ValorCausaData := none
  informacoes_complementares : Option (List InformacaoComplementarData) := none
deriving DecidableEq, Repr

structure FonteData where
  id : Option Int := none
  processo_fonte_id : Option Int := none
  descricao : Option String := none
  nome : Option String := none
  sigla : Option String := none
  tipo : Option String := none
  data_inicio : Option String := none
  data_ultima_movimentacao : Option String := none
  segredo_justica : Option Bool := none
  arquivado : Option Bool := none
  status_predito : Option String := none
  grau : Option Int := none
  grau_formatado : Option String := none
  fisico : Option Bool := none
  sistema : Option String := none
  url : Option String := none
  quantidade_envolvidos : Option Int := none
  data_ultima_verificacao : Option String := none
  quantidade_movimentacoes : Option Int := none
  outros_numeros : Option String := none
  capa : Option CapaData := none
  audiencias : Option (List AudienciaData) := none
  envolvidos : Option (List EnvolvidoData) := none
deriving DecidableEq, Repr

structure ProcessoRelacionadoData where
  numero : Option String := none
deriving DecidableEq, Repr

/-- The top-level fetched record.  `numero_cnj := none` models an absent
    `"numero_cnj"` key, on which worker.py line 25 (`data["numero_cnj"]`)
    raises `KeyError`. -/
structure ProcessoData where
  numero_cnj : Option String := none
  titulo_polo_ativo : Option String := none
  titulo_polo_passivo : Option String := none
  ano_inicio : Option Int := none
  data_inicio : Option String := none
  estado_origem : Option EstadoOrigemData := none
  data_ultima_movimentacao : Option String := none
  quantidade_movimentacoes : Option Int := none
  fontes_tribunais_estao_arquivadas : Option Bool := none
  tempo_desde_ultima_verificacao : Option String := none
  data_ultima_verificacao : Option String := none
  unidade_origem : Option UnidadeOrigemData := none
  processos_relacionados : Option (List ProcessoRelacionadoData) := none
  fontes : Option (List FonteData) := none
deriving DecidableEq, Repr

/-! ## Stored entities (models.py), as the ownership tree rooted at Processo -/

/-- Value of a `Date` column after the worker's coercion: the Python local
    variable holds `None`, a parsed `date`, or (for the falsy string `""`,
    which skips the parse) the raw string itself. -/
inductive DateVal where
  | null
  | date (d : PyDate)
  | raw (s : String)
deriving DecidableEq, Repr

/-- Value of a `DateTime` column after coercion, same shape as `DateVal`. -/
inductive DateTimeVal where
  | null
  | dt (d : PyDateTime)
  | raw (s : String)
deriving DecidableEq, Repr

structure OABEnt where
  uf : Option String := none
  tipo : Option String := none
  numero : Option Int := none
deriving DecidableEq, Repr

structure AdvogadoEnt where
  nome : Option String := none
  quantidade_processos : Option Int := none
  tipo : Option String := none
  tipo_normalizado : Option String := none
  polo : Option String := none
  cpf : Option String := none
  cnpj : Option String := none
  prefixo : Option String := none
  sufixo : Option String := none
  oabs : List OABEnt := []
deriving DecidableEq, Repr

structure EnvolvidoEnt where
  nome : Option String := none
  quantidade_processos : Option Int := none
  tipo_pessoa : Option String := none
  tipo : Option String := none
  tipo_normalizado : Option String := none
  polo : Option String := none
  cpf : Option String := none
  cnpj : Option String := none
  prefixo : Option String := none
  sufixo : Option String := none
  advogados : List AdvogadoEnt := []
deriving DecidableEq, Repr

structure AudienciaEnt where
  data_audiencia : DateTimeVal := .null
  descricao : Option String := none
deriving DecidableEq, Repr

structure ValorCausaEnt where
  valor : Option ℚ := none
  moeda : Option String := none
  valor_formatado : Option String := none
deriving DecidableEq, Repr

structure InformacaoComplementarEnt where
  tipo : Option String := none
  valor : Option String := none
deriving DecidableEq, Repr

structure CapaEnt where
  classe : Option String := none
  assunto : Option String := none
  assuntos_normalizados : Option String := none
  assunto_principal_normalizado : Option String := none
  area : Option String := none
  orgao_julgador : Option String := none
  situacao : Option String := none
  data_distribuicao : DateVal := .null
  data_arquivamento : DateVal := .null
  valor_causa : Option ValorCausaEnt := none
  informacoes_complementares : List InformacaoComplementarEnt := []
deriving DecidableEq, Repr

structure FonteEnt where
  fonte_id : Option Int := none
  processo_fonte_id : Option Int := none
  descricao : Option String := none
  nome : Option String := none
  sigla : Option String := none
  tipo : Option String := none
  data_inicio : DateVal := .null
  data_ultima_movimentacao : DateVal := .null
  segredo_justica : Option Bool := none
  arquivado : Option Bool := none
  status_predito : Option String := none
  grau : Option Int := none
  grau_formatado : Option String := none
  fisico : Option Bool := none
  sistema : Option String := none
  url : Option String := none
  quantidade_envolvidos : Option Int := none
  data_ultima_verificacao : DateTimeVal := .null
  quantidade_movimentacoes : Option Int := none
  outros_numeros : Option String := none
  capa : Option CapaEnt := none
  audiencias : List AudienciaEnt := []
  envolvidos : List EnvolvidoEnt := []
deriving DecidableEq, Repr

structure ProcessoRelacionadoEnt where
  numero : Option String := none
deriving DecidableEq, Repr

structure ProcessoEnt where
  numero_cnj : Option String := none
  titulo_polo_ativo : Option String := none
  titulo_polo_passivo : Option String := none
  ano_inicio : Option Int := none
  data_inicio : DateVal := .null
  estado_origem : Option String := none
  data_ultima_movimentacao : DateVal := .null
  quantidade_movimentacoes : Option Int := none
  fontes_tribunais_estao_arquivadas : Option Bool := none
  tempo_desde_ultima_verificacao : Option String := none
  data_ultima_verificacao : DateTimeVal := .null
  unidade_origem_nome : Option String := none
  unidade_origem_cidade : Option String := none
  unidade_origem_estado : Option String := none
  unidade_origem_tribunal_sigla : Option String := none
  processos_relacionados : List ProcessoRelacionadoEnt := []
  fontes : List FonteEnt := []
deriving DecidableEq, Repr

/-! ## worker.py: the persistence mapper `salvar_processo` (lines 23-256) -/

/-- The coercion applied to `Date` fields (worker.py lines 30-35, 37-42,
    86-91, 93-98, 137-142, 144-149): `if x and isinstance(x, str): try
    strptime except ValueError: None`.  A falsy `""` skips the parse and the
    raw string is handed to the column unchanged. -/
def coerce_date_Ymd (v : Option String) : DateVal :=
  match v with
  | none => .null
  | some s =>
      if s = "" then .raw s
      else match strptime_Ymd s with
        | some d => .date d
        | none => .null

/-- The coercion applied to `DateTime` fields via `datetime.fromisoformat`
    (worker.py lines 44-49, 100-105, 199-204). -/
def coerce_datetime_iso (v : Option String) : DateTimeVal :=
  match v with
  | none => .null
  | some s =>
      if s = "" then .raw s
      else match fromisoformat s with
        | some d => .dt d
        | none => .null

/-- worker.py lines 170-180: `if valor_str: try: float(valor_str) except
    (ValueError, TypeError): None`.  Note: no cleaning of currency prefixes
    or separators happens on this path. -/
def valor_causa_float (valor : Option String) : Option ℚ :=
  match valor with
  | none => none
  | some s => if s = "" then none else pyFloat s.toList

/-- worker.py lines 249-254. -/
def montarOab (o : OabData) : OABEnt :=
  { uf := o.uf, tipo := o.tipo, numero := o.numero }

/-- worker.py lines 231-245. -/
def montarAdvogado (a : AdvogadoData) : AdvogadoEnt :=
  { nome := a.nome
    quantidade_processos := a.quantidade_processos
    tipo := a.tipo
    tipo_normalizado := a.tipo_normalizado
    polo := a.polo
    cpf := a.cpf
    cnpj := a.cnpj
    prefixo := a.prefixo
    sufixo := a.sufixo
    oabs := (a.oabs.getD []).map montarOab }

/-- worker.py lines 213-228. -/
def montarEnvolvido (e : EnvolvidoData) : EnvolvidoEnt :=
  { nome := e.nome
    quantidade_processos := e.quantidade_processos
    tipo_pessoa := e.tipo_pessoa
    tipo := e.tipo
    tipo_normalizado := e.tipo_normalizado
    polo := e.polo
    cpf := e.cpf
    cnpj := e.cnpj
    prefixo := e.prefixo
    sufixo := e.sufixo
    advogados := (e.advogados.getD []).map montarAdvogado }

/-- worker.py lines 198-210. -/
def montarAudiencia (a : AudienciaData) : AudienciaEnt :=
  { data_audiencia := coerce_datetime_iso a.data_audiencia
    descricao := a.descricao }

/-- worker.py lines 167-187. -/
def montarValorCausa (v : ValorCausaData) : ValorCausaEnt :=
  { valor := valor_causa_float v.valor
    moeda := v.moeda
    valor_formatado := v.valor_formatado }

/-- worker.py lines 190-195. -/
def montarInformacao (i : InformacaoComplementarData) : InformacaoComplementarEnt :=
  { tipo := i.tipo, valor := i.valor }

/-- worker.py lines 134-195 (`Capa`, its `ValorCausa` and its
    `InformacaoComplementar` children). -/
def montarCapa (c : CapaData) : CapaEnt :=
  { classe := c.classe
    assunto := c.assunto
    assuntos_normalizados := c.assuntos_normalizados
    assunto_principal_normalizado := c.assunto_principal_normalizado
    area := c.area
    orgao_julgador := c.orgao_julgador
    situacao := c.situacao
    data_distribuicao := coerce_date_Ymd c.data_distribuicao
    data_arquivamento := coerce_date_Ymd c.data_arquivamento
    valor_causa := c.valor_causa.map montarValorCausa
    informacoes_complementares := (c.informacoes_complementares.getD []).map montarInformacao }

/-- worker.py lines 85-254 (`Fonte` and all its children). -/
def montarFonte (f : FonteData) : FonteEnt :=
  { fonte_id := f.id
    processo_fonte_id := f.processo_fonte_id
    descricao := f.descricao
    nome := f.nome
    sigla := f.sigla
    tipo := f.tipo
    data_inicio := coerce_date_Ymd f.data_inicio
    data_ultima_movimentacao := coerce_date_Ymd f.data_ultima_movimentacao
    segredo_justica := f.segredo_justica
    arquivado := f.arquivado
    status_predito := f.status_predito
    grau := f.grau
    grau_formatado := f.grau_formatado
    fisico := f.fisico
    sistema := f.sistema
    url := f.url
    quantidade_envolvidos := f.quantidade_envolvidos
    data_ultima_verificacao := coerce_datetime_iso f.data_ultima_verificacao
    quantidade_movimentacoes := f.quantidade_movimentacoes
    outros_numeros := f.outros_numeros
    capa := f.capa.map montarCapa
    audiencias := (f.audiencias.getD []).map montarAudiencia
    envolvidos := (f.envolvidos.getD []).map montarEnvolvido }

/-- worker.py lines 29-254: the full entity tree built for one record. -/
def montarProcesso (d : ProcessoData) : ProcessoEnt :=
  { numero_cnj := d.numero_cnj
    titulo_polo_ativo := d.titulo_polo_ativo
    titulo_polo_passivo := d.titulo_polo_passivo
    ano_inicio := d.ano_inicio
    data_inicio := coerce_date_Ymd d.data_inicio
    estado_origem :=
      match d.estado_origem with
      | some (.dictv sigla) => sigla
      | some (.strv s) => some s
      | none => none
    data_ultima_movimentacao := coerce_date_Ymd d.data_ultima_movimentacao
    quantidade_movimentacoes := d.quantidade_movimentacoes
    fontes_tribunais_estao_arquivadas := d.fontes_tribunais_estao_arquivadas
    tempo_desde_ultima_verificacao := d.tempo_desde_ultima_verificacao
    data_ultima_verificacao := coerce_datetime_iso d.data_ultima_verificacao
    unidade_origem_nome := d.unidade_origem.bind (·.nome)
    unidade_origem_cidade := d.unidade_origem.bind (·.cidade)
    unidade_origem_estado := d.unidade_origem.bind (·.estado)
    unidade_origem_tribunal_sigla := d.unidade_origem.bind (·.tribunal_sigla)
    processos_relacionados :=
      (d.processos_relacionados.getD []).map (fun r => { numero := r.numero })
    fontes := (d.fontes.getD []).map montarFonte }

/-- The persistence sink keyed by case number (the `processos` table with
    its owned children). -/
abbrev Store := List ProcessoEnt

/-- The `select(Processo).where(Processo.numero_cnj == n)` lookup. -/
def containsCnj (store : Store) (n : String) : Bool :=
  store.any (fun p => p.numero_cnj == some n)

/-- Number of stored `Processo` rows with the given `numero_cnj`. -/
def countCnj (store : Store) (n : String) : ℕ :=
  store.countP (fun p => p.numero_cnj == some n)

/-- worker.py lines 23-256: look up the Case by `numero_cnj` (line 25,
    `data["numero_cnj"]` raises `KeyError` on an absent key); if found,
    fall through to the final `commit` without touching the store; otherwise
    build and insert the whole entity tree, then commit.  An `error` result
    models an exception escaping `salvar_processo` with the record's
    uncommitted work pending (rolled back by the caller). -/
def salvar_processo (store : Store) (data : ProcessoData) :
    Except String Store :=
  match data.numero_cnj with
  | none => .error "KeyError: numero_cnj"
  | some n =>
      if containsCnj store n then .ok store
      else .ok (store ++ [montarProcesso data])

/-! ## worker.py: the batch orchestrator `processar_lote` (lines 259-281) -/

/-- One element of `resultados = await asyncio.gather(*tasks,
    return_exceptions=True)`: a captured exception, or the JSON value
    (`ok none` is a falsy JSON value, skipped by `elif r:`). -/
abbrev ResultadoFetch := Except String (Option ProcessoData)

/-- Observable pipeline events: an outbound fetch for a case number, and an
    invocation of the persistence mapper on a fetched record. -/
inductive Evento where
  | fetch (numero : String)
  | persist (numero_cnj : Option String)
deriving DecidableEq, Repr

/-- Whether an event is a persistence-phase event. -/
def Evento.ehPersist : Evento → Bool
  | .persist _ => true
  | .fetch _ => false

/-- worker.py lines 277-281: one `salvar_processo` call guarded by
    `try/except`: on an exception the transaction is rolled back and the
    store is left exactly as it was (the error is logged with the record's
    case number). -/
def salvarComRollback (store : Store) (d : ProcessoData) : Store :=
  match salvar_processo store d with
  | .ok s' => s'
  | .error _ => store

/-- worker.py lines 272-281: the sequential persistence loop over one
    chunk's results.  Exceptions captured by `gather` are logged and
    skipped; falsy results are skipped; a `salvar_processo` failure is
    caught, the transaction rolled back (store left as it was), and the
    loop continues.  Also returns the persist events in order. -/
def persistirResultados : Store → List ResultadoFetch → Store × List Evento
  | store, [] => (store, [])
  | store, r :: rest =>
      match r with
      | .error _ => persistirResultados store rest
      | .ok none => persistirResultados store rest
      | .ok (some d) =>
          let r' := persistirResultados (salvarComRollback store d) rest
          (r'.1, .persist d.numero_cnj :: r'.2)

/-- worker.py lines 264-281: for each batch, fan out one fetch per number
    (`asyncio.gather` completes them all before the persistence loop
    starts), then persist the results sequentially.  The `oracle` is the
    network's answer per case number; the trace records fetches and
    persistence attempts in program order. -/
def processarBatches (oracle : String → ResultadoFetch) :
    Store → List (List String) → Store × List Evento
  | store, [] => (store, [])
  | store, batch :: rest =>
      let resultados := batch.map oracle
      let fase := persistirResultados store resultados
      let resto := processarBatches oracle fase.1 rest
      (resto.1, batch.map Evento.fetch ++ fase.2 ++ resto.2)

/-- worker.py line 21. -/
def BATCH_SIZE : ℕ := 200

/-- `processar_lote` with an explicit batch size. -/
def processarLoteCom (oracle : String → ResultadoFetch) (B : ℕ)
    (store : Store) (numeros : List String) : Store × List Evento :=
  processarBatches oracle store (chunks numeros B)

/-- worker.py lines 259-281. -/
def processar_lote (oracle : String → ResultadoFetch)
    (store : Store) (numeros : List String) : Store × List Evento :=
  processarLoteCom oracle BATCH_SIZE store numeros

/-! ## main.py: the ingestion endpoint's pre-filter (lines 112-120) -/

/-- main.py lines 112-120: query the numbers already stored among the
    uploaded ones (`existing_cnjs`), then keep only the numbers not in that
    set (`numeros_cnj_para_processar`). -/
def filtrarExistentes (store : Store) (numeros_csv : List String) : List String :=
  let existing_cnjs := numeros_csv.filter (fun cnj => containsCnj store cnj)
  numeros_csv.filter (fun cnj => !existing_cnjs.contains cnj)

/-- main.py lines 240-248: clean the granted-value text
    (`.replace("R$", "").replace(".", "").replace(",", ".").strip()`) and
    parse it with `float`; a falsy value or a parse failure stores `None`. -/
def parse_valor_deferido (v : Option String) : Option ℚ :=
  match v with
  | none => none
  | some s =>
      if s = "" then none
      else pyFloat (pyStrip (commaToDot (removeDots (removeRS s.toList))))


/-! ## Concrete fixtures used by witnesses and counterexamples -/

/-- A minimal fetched record carrying only its case number. -/
def demoProcesso (n : String) : ProcessoData := { numero_cnj := some n }

/-- A fetched record with no `"numero_cnj"` key: `salvar_processo` raises
    `KeyError` on it (worker.py line 25). -/
def processoSemCnj : ProcessoData := {}

/-- An oracle whose every fetch succeeds with a minimal record. -/
def oracleDemo : String → ResultadoFetch := fun numero => .ok (some (demoProcesso numero))

/-- An oracle that answers 500 to the first two attempts and 200 afterwards. -/
def oracleFalhaDuasVezes : ℕ → HttpResp :=
  fun attempt => if attempt ≤ 2 then .resp 500 "" else .resp 200 "corpo"

/-- A fetched `valor_causa` node carrying locale-formatted currency text. -/
def valorCausaMoeda : ValorCausaData := { valor := some "R$ 1.234,56" }

/-- A fetched record whose `data_inicio` is the empty string. -/
def processoDataVazia : ProcessoData :=
  { numero_cnj := some "0000001-00.0000.0.00.0000", data_inicio := some "" }

/-- A fetched record whose `data_inicio` is a well-formed ISO date. -/
def processoDataIso : ProcessoData :=
  { numero_cnj := some "cnj", data_inicio := some "2023-05-10" }

/-- A stored Case with number `"A"`, pre-seeding the sink. -/
def processoArmazenado : ProcessoEnt := { numero_cnj := some "A" }

/-! # Theorems

## Chunking (claim C5) -/

lemma chunks_nil {α : Type} (n : ℕ) : chunks ([] : List α) n = [] := by
  unfold chunks
  simp only [List.length_nil, Nat.zero_add]
  cases n with
  | zero => rfl
  | succ m => rw [Nat.succ_sub_one, Nat.div_eq_of_lt (Nat.lt_succ_self m)]; rfl

lemma ceil_div_step (t n : ℕ) (ht : 0 < t) (hn : 0 < n) :
    (t + n - 1) / n = (t - n + n - 1) / n + 1 := by
  have hL : t + n - 1 = (t - 1) + n := by omega
  rcases le_or_lt t n with h | h
  · have h0 : t - n = 0 := by omega
    rw [hL, Nat.add_div_right _ hn, h0, Nat.div_eq_of_lt (by omega),
      Nat.div_eq_of_lt (by omega)]
  · have hR : t - n + n - 1 = t - 1 := by omega
    rw [hL, Nat.add_div_right _ hn, hR]

/-- Unfolding `chunks` one slice at a time: the indexed slicing loop is the
    usual take/drop recursion. -/
lemma chunks_cons {α : Type} (lst : List α) (n : ℕ) (hn : 0 < n) (hl : lst ≠ []) :
    chunks lst n = lst.take n :: chunks (lst.drop n) n := by
  have ht : 0 < lst.length := List.length_pos.mpr hl
  unfold chunks
  rw [List.length_drop, ceil_div_step lst.length n ht hn, List.range_succ_eq_map]
  simp only [List.map_cons, List.map_map]
  congr 1
  · simp
  · have hfun : ((fun k => (lst.drop (k * n)).take n) ∘ Nat.succ)
        = fun k => ((lst.drop n).drop (k * n)).take n := by
      funext k
      simp only [Function.comp_apply, List.drop_drop]
      congr 2
      rw [Nat.succ_mul]
      ring
    rw [hfun]

lemma chunks_join {α : Type} (n : ℕ) (hn : 0 < n) (lst : List α) :
    (chunks lst n).flatten = lst := by
  generalize hlen : lst.length = t
  induction t using Nat.strong_induction_on generalizing lst with
  | _ t ih =>
    rcases eq_or_ne lst [] with rfl | hne
    · rw [chunks_nil]; rfl
    · have ht : 0 < lst.length := List.length_pos.mpr hne
      rw [chunks_cons lst n hn hne, List.flatten_cons,
        ih (lst.drop n).length (by rw [List.length_drop]; omega) (lst.drop n) rfl,
        List.take_append_drop]

lemma chunks_dropLast {α : Type} (n : ℕ) (hn : 0 < n) (lst : List α) :
    ∀ c ∈ (chunks lst n).dropLast, c.length = n := by
  generalize hlen : lst.length = t
  induction t using Nat.strong_induction_on generalizing lst with
  | _ t ih =>
    rcases eq_or_ne lst [] with rfl | hne
    · rw [chunks_nil]; intro c hc; simp at hc
    · rw [chunks_cons lst n hn hne]
      rcases eq_or_ne (lst.drop n) [] with hd | hd
      · rw [hd, chunks_nil]; intro c hc; simp at hc
      · have hrest : chunks (lst.drop n) n ≠ [] := by
          rw [chunks_cons _ n hn hd]; simp
        rw [List.dropLast_cons_of_ne_nil hrest]
        intro c hc
        rcases List.mem_cons.mp hc with rfl | hc'
        · have hlt : n < lst.length := by
            have := List.length_pos.mpr hd
            rw [List.length_drop] at this; omega
          rw [List.length_take]; omega
        · have ht : 0 < lst.length := List.length_pos.mpr hne
          exact ih (lst.drop n).length (by rw [List.length_drop]; omega)
            (lst.drop n) rfl c hc'

lemma chunks_getLast {α : Type} (n : ℕ) (hn : 0 < n) (lst : List α) (hne : lst ≠ []) :
    ∃ ultimo, (chunks lst n).getLast? = some ultimo
      ∧ ultimo.length = if lst.length % n = 0 then n else lst.length % n := by
  generalize hlen : lst.length = t
  induction t using Nat.strong_induction_on generalizing lst with
  | _ t ih =>
    subst hlen
    have ht : 0 < lst.length := List.length_pos.mpr hne
    rw [chunks_cons lst n hn hne]
    rcases eq_or_ne (lst.drop n) [] with hd | hd
    · have hle : lst.length ≤ n := by
        have := List.length_drop n lst
        rw [hd] at this
        simp at this; omega
      rw [hd, chunks_nil]
      refine ⟨lst.take n, rfl, ?_⟩
      rw [List.length_take]
      rcases eq_or_lt_of_le hle with heq | hlt
      · rw [heq, Nat.mod_self, if_pos rfl]; omega
      · rw [Nat.mod_eq_of_lt hlt, if_neg (by omega)]; omega
    · have hlt : n < lst.length := by
        have := List.length_pos.mpr hd
        rw [List.length_drop] at this; omega
      obtain ⟨u, hu1, hu2⟩ := ih (lst.drop n).length (by rw [List.length_drop]; omega)
        (lst.drop n) hd rfl
      refine ⟨u, ?_, ?_⟩
      · rcases hrc : chunks (lst.drop n) n with _ | ⟨b, l'⟩
        · exact absurd hrc (by rw [chunks_cons _ n hn hd]; simp)
        · rw [hrc] at hu1
          rw [List.getLast?_cons_cons]
          exact hu1
      · rw [hu2, List.length_drop]
        have hmod : (lst.length - n) % n = lst.length % n := by
          have harr : lst.length - n + n = lst.length := by omega
          calc (lst.length - n) % n = (lst.length - n + n) % n :=
                (Nat.add_mod_right _ _).symm
            _ = lst.length % n := by rw [harr]
        rw [hmod]

/-- C5: for every list of length `N` and every chunk size `B > 0`, the
    slicing loop used by `processar_lote` (worker.py 264-265) and `chunks`
    (main.py 147-150) produces `⌈N/B⌉` chunks; every chunk but the last has
    size exactly `B`; the last has size `N mod B` (or `B` when `B ∣ N`);
    and concatenating the chunks in order reproduces the input. -/
theorem chunks_spec {α : Type} (lst : List α) (B : ℕ) (hB : 0 < B) :
    (chunks lst B).length = (lst.length + B - 1) / B
    ∧ (∀ c ∈ (chunks lst B).dropLast, c.length = B)
    ∧ (lst ≠ [] → ∃ ultimo, (chunks lst B).getLast? = some ultimo
        ∧ ultimo.length = if lst.length % B = 0 then B else lst.length % B)
    ∧ (chunks lst B).flatten = lst :=
  ⟨by simp [chunks], chunks_dropLast B hB lst,
    fun h => chunks_getLast B hB lst h, chunks_join B hB lst⟩

/-- Witness for C5 at `lst = [1,2,3,4,5]`, `B = 2`. -/
theorem chunks_spec_witness :
    0 < 2
    ∧ ((chunks ([1, 2, 3, 4, 5] : List ℕ) 2).length
          = (([1, 2, 3, 4, 5] : List ℕ).length + 2 - 1) / 2
      ∧ (∀ c ∈ (chunks ([1, 2, 3, 4, 5] : List ℕ) 2).dropLast, c.length = 2)
      ∧ (([1, 2, 3, 4, 5] : List ℕ) ≠ [] →
          ∃ ultimo, (chunks ([1, 2, 3, 4, 5] : List ℕ) 2).getLast? = some ultimo
            ∧ ultimo.length = if ([1, 2, 3, 4, 5] : List ℕ).length % 2 = 0 then 2
                else ([1, 2, 3, 4, 5] : List ℕ).length % 2)
      ∧ (chunks ([1, 2, 3, 4, 5] : List ℕ) 2).flatten = [1, 2, 3, 4, 5]) :=
  ⟨by decide, chunks_spec ([1, 2, 3, 4, 5] : List ℕ) 2 (by decide)⟩

/-! ## The fetch client retry/backoff (claim C4) -/

/-- The backoff waits recorded by a run are always one of `[]`, `[2]`,
    `[2, 4]`: at most two sleeps separate the at-most-three attempts. -/
lemma consultar_numero_waits (oracle : ℕ → HttpResp) (numero : String) :
    (consultar_numero oracle numero).2 = []
    ∨ (consultar_numero oracle numero).2 = [2]
    ∨ (consultar_numero oracle numero).2 = [2, 4] := by
  have w1 : wait_exponential 1 2 10 1 = 2 := by decide
  have w2 : wait_exponential 1 2 10 2 = 4 := by decide
  unfold consultar_numero
  cases h1 : tentativa numero (oracle 1) with
  | ok v => simp [tenacityGo, h1]
  | error e1 =>
      cases h2 : tentativa numero (oracle 2) with
      | ok v => simp [tenacityGo, h1, h2, w1]
      | error e2 =>
          cases h3 : tentativa numero (oracle 3) with
          | ok v => simp [tenacityGo, h1, h2, h3, w1, w2]
          | error e3 => simp [tenacityGo, h1, h2, h3, w1, w2]

/-- C4: the fetch client `consultar_numero` (consultas.py 14-27).  A call
    whose first two attempts fail (non-200 status or transport error) and
    whose third attempt returns 200 yields the successful body, having
    slept `[2, 4]`; every run makes at most 3 attempts (the waits list,
    one entry per retry, has length at most 2); the recorded waits are
    non-decreasing and lie in `[2, 10]`; and the tenacity wait function
    `wait_exponential(multiplier=1, min=2, max=10)` starts at 2, doubles
    after each attempt, and is capped at 10 (hence non-decreasing). -/
theorem consultar_numero_retry_spec :
    (∀ (oracle : ℕ → HttpResp) (numero v : String),
      (∃ e1, tentativa numero (oracle 1) = .error e1) →
      (∃ e2, tentativa numero (oracle 2) = .error e2) →
      tentativa numero (oracle 3) = .ok v →
      consultar_numero oracle numero = (.ok v, [2, 4]))
    ∧ (∀ (oracle : ℕ → HttpResp) (numero : String),
        (consultar_numero oracle numero).2.length + 1 ≤ 3)
    ∧ (∀ (oracle : ℕ → HttpResp) (numero : String),
        List.Chain' (· ≤ ·) (consultar_numero oracle numero).2
        ∧ ∀ w ∈ (consultar_numero oracle numero).2, 2 ≤ w ∧ w ≤ 10)
    ∧ wait_exponential 1 2 10 1 = 2
    ∧ (∀ n, 1 ≤ n →
        wait_exponential 1 2 10 (n + 1) = min (2 * wait_exponential 1 2 10 n) 10
        ∧ wait_exponential 1 2 10 n ≤ wait_exponential 1 2 10 (n + 1)) := by
  refine ⟨?_, ?_, ?_, by decide, ?_⟩
  · rintro oracle numero v ⟨e1, he1⟩ ⟨e2, he2⟩ h3
    have w1 : wait_exponential 1 2 10 1 = 2 := by decide
    have w2 : wait_exponential 1 2 10 2 = 4 := by decide
    unfold consultar_numero
    simp [tenacityGo, he1, he2, h3, w1, w2]
  · intro oracle numero
    rcases consultar_numero_waits oracle numero with h | h | h <;> simp [h]
  · intro oracle numero
    rcases consultar_numero_waits oracle numero with h | h | h <;> simp [h]
  · intro n hn
    have h2n : 2 ≤ 2 ^ n := by
      calc 2 = 2 ^ 1 := by norm_num
        _ ≤ 2 ^ n := Nat.pow_le_pow_right (by norm_num) hn
    have hp : 2 ^ (n + 1) = 2 * 2 ^ n := by rw [pow_succ]; ring
    unfold wait_exponential
    rw [one_mul, one_mul, hp]
    constructor <;> omega

/-- Witness for C4: two failures then success, at a concrete oracle. -/
theorem consultar_numero_retry_spec_witness :
    (∃ e1, tentativa "cnj" (oracleFalhaDuasVezes 1) = .error e1)
    ∧ (∃ e2, tentativa "cnj" (oracleFalhaDuasVezes 2) = .error e2)
    ∧ tentativa "cnj" (oracleFalhaDuasVezes 3) = .ok "corpo"
    ∧ consultar_numero oracleFalhaDuasVezes "cnj" = (.ok "corpo", [2, 4]) :=
  ⟨⟨_, rfl⟩, ⟨_, rfl⟩, rfl,
    consultar_numero_retry_spec.1 oracleFalhaDuasVezes "cnj" "corpo"
      ⟨_, rfl⟩ ⟨_, rfl⟩ rfl⟩

/-! ## CNJ-number formatting (claim C9) -/

/-- Reassembling the five digit segments of the formatted CNJ gives back the
    original character list. -/
lemma segmentos_cnj (cs : List Char) :
    cs.take 7 ++ ((cs.drop 7).take 2 ++ ((cs.drop 9).take 4 ++ ((cs.drop 13).take 1
      ++ ((cs.drop 14).take 2 ++ cs.drop 16)))) = cs := by
  have h16 : cs.drop 16 = (cs.drop 14).drop 2 := by rw [List.drop_drop]
  have h14 : cs.drop 14 = (cs.drop 13).drop 1 := by rw [List.drop_drop]
  have h13 : cs.drop 13 = (cs.drop 9).drop 4 := by rw [List.drop_drop]
  have h9 : cs.drop 9 = (cs.drop 7).drop 2 := by rw [List.drop_drop]
  rw [h16, List.take_append_drop, h14, List.take_append_drop, h13,
    List.take_append_drop, h9, List.take_append_drop, List.take_append_drop]

lemma filter_digit_of_all (l : List Char) (h : ∀ c ∈ l, c.isDigit = true) :
    l.filter Char.isDigit = l :=
  List.filter_eq_self.mpr h

lemma filter_nondigit_of_all (l : List Char) (h : ∀ c ∈ l, c.isDigit = true) :
    l.filter (fun c => !c.isDigit) = [] := by
  induction l with
  | nil => rfl
  | cons c l ih =>
      have hc := h c (List.mem_cons_self c l)
      simp [List.filter_cons, hc, ih fun x hx => h x (List.mem_cons_of_mem c hx)]

lemma map_digit_of_all (l : List Char) (h : ∀ c ∈ l, c.isDigit = true) :
    l.map Char.isDigit = List.replicate l.length true := by
  induction l with
  | nil => rfl
  | cons c l ih =>
      have hc := h c (List.mem_cons_self c l)
      simp [hc, ih fun x hx => h x (List.mem_cons_of_mem c hx), List.replicate_succ]

/-- C9: `formatar_cnj` (main.py 49-56) maps every 20-digit string to the
    canonical mask `0000000-00.0000.0.00.0000` — the output's digit
    subsequence is exactly the input (order preserved), its non-digit
    characters are `-`, `.`, `.`, `.`, `.` in order, and its digit/non-digit
    pattern is the 25-character canonical mask — and returns any other input
    (empty, `None`, wrong length, non-digit) unchanged.  The function is
    total: no exception path exists. -/
theorem formatar_cnj_spec (s : String) :
    formatar_cnj none = none
    ∧ ((s == "" || !pyIsdigit s || s.length != 20) = true → formatar_cnj (some s) = some s)
    ∧ (s.toList.length = 20 → s.toList.all Char.isDigit = true →
        ∃ t, formatar_cnj (some s) = some t
          ∧ t.toList.filter Char.isDigit = s.toList
          ∧ t.toList.filter (fun c => !c.isDigit) = ['-', '.', '.', '.', '.']
          ∧ t.toList.map Char.isDigit
              = [true, true, true, true, true, true, true, false, true, true, false,
                 true, true, true, true, false, true, false, true, true, false,
                 true, true, true, true]) := by
  refine ⟨rfl, ?_, ?_⟩
  · intro h
    simp only [formatar_cnj]
    rw [if_pos h]
  · intro h20 hall
    have hmem : ∀ c ∈ s.toList, c.isDigit = true :=
      fun c hc => List.all_eq_true.mp hall c hc
    have hlen : s.length = 20 := h20
    have hne : s ≠ "" := by
      intro h
      rw [h] at h20
      simp at h20
    have hdig : pyIsdigit s = true := by
      unfold pyIsdigit
      rw [hall]
      simp [hne]
    have hcond : (s == "" || !pyIsdigit s || s.length != 20) = false := by
      simp [hdig, hlen, hne]
    have hred : formatar_cnj (some s) = some (String.mk (s.toList.take 7) ++ "-"
        ++ String.mk ((s.toList.drop 7).take 2) ++ "." ++ String.mk ((s.toList.drop 9).take 4)
        ++ "." ++ String.mk ((s.toList.drop 13).take 1) ++ "."
        ++ String.mk ((s.toList.drop 14).take 2) ++ "." ++ String.mk (s.toList.drop 16)) := by
      simp only [formatar_cnj]
      rw [hcond]
      simp
    set cs := s.toList with hcs
    have hdata : (String.mk (cs.take 7) ++ "-" ++ String.mk ((cs.drop 7).take 2) ++ "."
        ++ String.mk ((cs.drop 9).take 4) ++ "." ++ String.mk ((cs.drop 13).take 1) ++ "."
        ++ String.mk ((cs.drop 14).take 2) ++ "." ++ String.mk (cs.drop 16)).toList
        = cs.take 7 ++ ('-' :: ((cs.drop 7).take 2 ++ ('.' :: ((cs.drop 9).take 4
          ++ ('.' :: ((cs.drop 13).take 1 ++ ('.' :: ((cs.drop 14).take 2
          ++ ('.' :: cs.drop 16))))))))) := by
      show (_ : String).data = _
      simp only [String.data_append]
      simp [List.append_assoc]
    have m1 : ∀ c ∈ cs.take 7, c.isDigit = true :=
      fun c hc => hmem c (List.take_subset 7 cs hc)
    have m2 : ∀ c ∈ (cs.drop 7).take 2, c.isDigit = true :=
      fun c hc => hmem c (List.drop_subset 7 cs (List.take_subset 2 _ hc))
    have m3 : ∀ c ∈ (cs.drop 9).take 4, c.isDigit = true :=
      fun c hc => hmem c (List.drop_subset 9 cs (List.take_subset 4 _ hc))
    have m4 : ∀ c ∈ (cs.drop 13).take 1, c.isDigit = true :=
      fun c hc => hmem c (List.drop_subset 13 cs (List.take_subset 1 _ hc))
    have m5 : ∀ c ∈ (cs.drop 14).take 2, c.isDigit = true :=
      fun c hc => hmem c (List.drop_subset 14 cs (List.take_subset 2 _ hc))
    have m6 : ∀ c ∈ cs.drop 16, c.isDigit = true :=
      fun c hc => hmem c (List.drop_subset 16 cs hc)
    refine ⟨_, hred, ?_, ?_, ?_⟩
    · rw [hdata]
      simp only [List.filter_append, List.filter_cons]
      rw [filter_digit_of_all _ m1, filter_digit_of_all _ m2, filter_digit_of_all _ m3,
        filter_digit_of_all _ m4, filter_digit_of_all _ m5, filter_digit_of_all _ m6]
      exact segmentos_cnj cs
    · rw [hdata]
      simp only [List.filter_append, List.filter_cons]
      rw [filter_nondigit_of_all _ m1, filter_nondigit_of_all _ m2,
        filter_nondigit_of_all _ m3, filter_nondigit_of_all _ m4,
        filter_nondigit_of_all _ m5, filter_nondigit_of_all _ m6]
      simp
    · rw [hdata]
      have l1 : (cs.take 7).length = 7 := by rw [List.length_take, h20]; decide
      have l2 : ((cs.drop 7).take 2).length = 2 := by
        rw [List.length_take, List.length_drop, h20]; decide
      have l3 : ((cs.drop 9).take 4).length = 4 := by
        rw [List.length_take, List.length_drop, h20]; decide
      have l4 : ((cs.drop 13).take 1).length = 1 := by
        rw [List.length_take, List.length_drop, h20]; decide
      have l5 : ((cs.drop 14).take 2).length = 2 := by
        rw [List.length_take, List.length_drop, h20]; decide
      have l6 : (cs.drop 16).length = 4 := by rw [List.length_drop, h20]
      simp only [List.map_append, List.map_cons]
      rw [map_digit_of_all _ m1, map_digit_of_all _ m2, map_digit_of_all _ m3,
        map_digit_of_all _ m4, map_digit_of_all _ m5, map_digit_of_all _ m6,
        l1, l2, l3, l4, l5, l6]
      decide

/-- Witness for C9 at the 20-digit input `"01234567890123456789"`. -/
theorem formatar_cnj_spec_witness :
    ("01234567890123456789" : String).toList.length = 20
    ∧ ("01234567890123456789" : String).toList.all Char.isDigit = true
    ∧ ∃ t, formatar_cnj (some "01234567890123456789") = some t
        ∧ t.toList.filter Char.isDigit = ("01234567890123456789" : String).toList
        ∧ t.toList.filter (fun c => !c.isDigit) = ['-', '.', '.', '.', '.']
        ∧ t.toList.map Char.isDigit
            = [true, true, true, true, true, true, true, false, true, true, false,
               true, true, true, true, false, true, false, true, true, false,
               true, true, true, true] :=
  ⟨by decide, by decide,
    (formatar_cnj_spec "01234567890123456789").2.2 (by decide) (by decide)⟩

/-! ## Monetary-value parsing (claims C10 and C3) -/

lemma takeWhile_eq_self_of_all {p : Char → Bool} (l : List Char)
    (h : ∀ c ∈ l, p c = true) : l.takeWhile p = l := by
  induction l with
  | nil => rfl
  | cons c l ih =>
      simp [List.takeWhile_cons, h c (List.mem_cons_self c l),
        ih fun x hx => h x (List.mem_cons_of_mem c hx)]

lemma dropWhile_eq_nil_of_all {p : Char → Bool} (l : List Char)
    (h : ∀ c ∈ l, p c = true) : l.dropWhile p = [] := by
  induction l with
  | nil => rfl
  | cons c l ih =>
      simp [List.dropWhile_cons, h c (List.mem_cons_self c l),
        ih fun x hx => h x (List.mem_cons_of_mem c hx)]

lemma dropWhile_eq_self_of_false {p : Char → Bool} (l : List Char)
    (h : ∀ c ∈ l, p c = false) : l.dropWhile p = l := by
  cases l with
  | nil => rfl
  | cons c rest => simp [List.dropWhile_cons, h c (List.mem_cons_self c rest)]

lemma pyStrip_of_no_space (l : List Char) (h : ∀ c ∈ l, pyIsSpace c = false) :
    pyStrip l = l := by
  unfold pyStrip
  have h1 : l.dropWhile pyIsSpace = l := dropWhile_eq_self_of_false l h
  rw [h1]
  have h2 : l.reverse.dropWhile pyIsSpace = l.reverse :=
    dropWhile_eq_self_of_false _ (fun c hc => h c (List.mem_reverse.mp hc))
  rw [h2, List.reverse_reverse]

/-- The character classes a decimal digit is disjoint from. -/
lemma digit_facts (c : Char) (h : c.isDigit = true) :
    c ≠ 'R' ∧ c ≠ ',' ∧ c ≠ '.' ∧ c ≠ '+' ∧ c ≠ '-' ∧ pyIsSpace c = false := by
  refine ⟨?_, ?_, ?_, ?_, ?_, ?_⟩
  · rintro rfl; exact absurd h (by decide)
  · rintro rfl; exact absurd h (by decide)
  · rintro rfl; exact absurd h (by decide)
  · rintro rfl; exact absurd h (by decide)
  · rintro rfl; exact absurd h (by decide)
  · cases hc : pyIsSpace c
    · rfl
    · exfalso
      unfold pyIsSpace at hc
      simp at hc
      rcases hc with ((((rfl | rfl) | rfl) | rfl) | rfl) | rfl <;>
        exact absurd h (by decide)

lemma removeRS_of_not_mem (l : List Char) (h : 'R' ∉ l) : removeRS l = l := by
  induction l with
  | nil => rfl
  | cons c l ih =>
      cases l with
      | nil => rfl
      | cons d rest =>
          simp only [removeRS]
          rw [if_neg, ih fun hm => h (List.mem_cons_of_mem c hm)]
          rintro ⟨rfl, -⟩
          exact h (List.mem_cons_self _ _)

lemma commaToDot_of_not_mem (l : List Char) (h : ',' ∉ l) : commaToDot l = l := by
  induction l with
  | nil => rfl
  | cons c l ih =>
      simp only [commaToDot]
      rw [if_neg, ih fun hm => h (List.mem_cons_of_mem c hm)]
      rintro rfl
      exact h (List.mem_cons_self _ _)

lemma removeDots_append (l1 l2 : List Char) :
    removeDots (l1 ++ l2) = removeDots l1 ++ removeDots l2 := by
  induction l1 with
  | nil => rfl
  | cons c l ih =>
      by_cases hc : c = '.'
      · simp [removeDots, hc, ih]
      · simp [removeDots, hc, ih]

lemma removeDots_of_not_mem (l : List Char) (h : '.' ∉ l) : removeDots l = l := by
  induction l with
  | nil => rfl
  | cons c l ih =>
      simp only [removeDots]
      rw [if_neg, ih fun hm => h (List.mem_cons_of_mem c hm)]
      rintro rfl
      exact h (List.mem_cons_self _ _)

/-- `float` on a nonempty pure-digit string is the digits' decimal value. -/
lemma pyFloat_digits (l : List Char) (hne : l ≠ [])
    (h : ∀ c ∈ l, c.isDigit = true) : pyFloat l = some ((natDigits l : ℚ)) := by
  have hsp : pyStrip l = l :=
    pyStrip_of_no_space l (fun c hc => (digit_facts c (h c hc)).2.2.2.2.2)
  cases l with
  | nil => exact absurd rfl hne
  | cons c rest =>
      have hc := h c (List.mem_cons_self c rest)
      simp only [pyFloat, hsp, List.head?_cons]
      rw [if_neg (by simp [(digit_facts c hc).2.2.2.1]),
        if_neg (by simp [(digit_facts c hc).2.2.2.2.1])]
      unfold pyFloatCore
      have htw : (c :: rest).takeWhile (fun x => decide (x ≠ '.')) = c :: rest :=
        takeWhile_eq_self_of_all _ (fun x hx => by
          simp [(digit_facts x (h x hx)).2.2.1])
      have hdw : (c :: rest).dropWhile (fun x => decide (x ≠ '.')) = [] :=
        dropWhile_eq_nil_of_all _ (fun x hx => by
          simp [(digit_facts x (h x hx)).2.2.1])
      rw [htw, hdw]
      simp [List.all_eq_true.mpr h, List.tail]

lemma takeWhile_middle {p : Char → Bool} (l1 l2 : List Char) (c : Char)
    (h1 : ∀ x ∈ l1, p x = true) (hc : p c = false) :
    (l1 ++ c :: l2).takeWhile p = l1 ∧ (l1 ++ c :: l2).dropWhile p = c :: l2 := by
  induction l1 with
  | nil => simp [List.takeWhile_cons, List.dropWhile_cons, hc]
  | cons a l ih =>
      have ha := h1 a (List.mem_cons_self a l)
      have ih' := ih fun x hx => h1 x (List.mem_cons_of_mem a hx)
      simp [List.takeWhile_cons, List.dropWhile_cons, ha, ih'.1, ih'.2]

/-- `float` on `digits.digits` is the exact decimal value (integer part plus
    the fraction scaled down by `10^(number of fraction digits)`). -/
lemma pyFloat_digits_dot (a b : List Char) (ha : a ≠ [])
    (hda : ∀ c ∈ a, c.isDigit = true) (hdb : ∀ c ∈ b, c.isDigit = true) :
    pyFloat (a ++ '.' :: b)
      = some ((natDigits a : ℚ) + (natDigits b : ℚ) / 10 ^ b.length) := by
  have hsp : pyStrip (a ++ '.' :: b) = a ++ '.' :: b := by
    apply pyStrip_of_no_space
    intro c hc
    rcases List.mem_append.mp hc with hm | hm
    · exact (digit_facts _ (hda _ hm)).2.2.2.2.2
    · rcases List.mem_cons.mp hm with rfl | hm'
      · decide
      · exact (digit_facts _ (hdb _ hm')).2.2.2.2.2
  have hmid := takeWhile_middle (p := fun x => decide (x ≠ '.')) a b '.'
    (fun x hx => by simp [(digit_facts x (hda x hx)).2.2.1]) (by simp)
  cases a with
  | nil => exact absurd rfl ha
  | cons c a' =>
      have hc := hda c (List.mem_cons_self c a')
      have hsp' : pyStrip (c :: (a' ++ '.' :: b)) = c :: (a' ++ '.' :: b) := by
        simpa using hsp
      rw [show (c :: a') ++ '.' :: b = c :: (a' ++ '.' :: b) from rfl] at hmid ⊢
      simp only [pyFloat, hsp', List.head?_cons]
      rw [if_neg (by simp [(digit_facts c hc).2.2.2.1]),
        if_neg (by simp [(digit_facts c hc).2.2.2.2.1])]
      unfold pyFloatCore
      rw [hmid.1, hmid.2]
      have hcond : ((c :: a').all Char.isDigit && b.all Char.isDigit
          && (!(c :: a').isEmpty || !b.isEmpty)) = true := by
        simp [List.all_eq_true.mpr hda, List.all_eq_true.mpr hdb]
      simp only [List.isEmpty_cons, List.tail_cons, hcond, if_true, if_false,
        Bool.false_eq_true]
      simp [natDigits]
      exact ⟨hc, fun x hx => hda x (List.mem_cons_of_mem c hx), hdb⟩

lemma natDigits_aux (b : List Char) (acc : ℕ) :
    b.foldl (fun a c => 10 * a + digitVal c) acc
      = acc * 10 ^ b.length + natDigits b := by
  induction b generalizing acc with
  | nil => simp [natDigits]
  | cons c b ih =>
      simp only [List.foldl_cons, List.length_cons]
      rw [ih (10 * acc + digitVal c)]
      have hn : natDigits (c :: b)
          = digitVal c * 10 ^ b.length + natDigits b := by
        have h0 : natDigits (c :: b)
            = List.foldl (fun a c => 10 * a + digitVal c) (10 * 0 + digitVal c) b := rfl
        rw [h0, ih]
        ring
      rw [hn]
      ring

/-- Removing the decimal dot concatenates the digit blocks: the resulting
    value is the original digits read as one integer. -/
lemma natDigits_append (a b : List Char) :
    natDigits (a ++ b) = natDigits a * 10 ^ b.length + natDigits b := by
  unfold natDigits
  rw [List.foldl_append]
  exact natDigits_aux b _

/-- C10: the granted-value cleaning in the supplementary-data upload
    (main.py 240-248) removes every `.` before parsing, so an input that
    uses `.` as its decimal separator (digits, one dot, digits) is stored
    as the concatenated digits' integer value — the intended decimal value
    multiplied by `10^(number of fraction digits)` — e.g. `"1234.56"` is
    stored as `123456`, not `1234.56`. -/
theorem valor_deferido_remove_pontos_spec :
    (∀ (a b : List Char), a ≠ [] → b ≠ [] → (∀ c ∈ a ++ b, c.isDigit = true) →
      parse_valor_deferido (some (String.mk (a ++ '.' :: b)))
        = some ((natDigits (a ++ b) : ℚ)))
    ∧ (∀ (a b : List Char), (natDigits (a ++ b) : ℚ)
        = ((natDigits a : ℚ) + (natDigits b : ℚ) / 10 ^ b.length) * 10 ^ b.length)
    ∧ parse_valor_deferido (some "1234.56") = some (123456 : ℚ)
    ∧ (123456 : ℚ) ≠ 123456 / 100 := by
  have hgeral : ∀ (a b : List Char), a ≠ [] → b ≠ [] →
      (∀ c ∈ a ++ b, c.isDigit = true) →
      parse_valor_deferido (some (String.mk (a ++ '.' :: b)))
        = some ((natDigits (a ++ b) : ℚ)) := by
    intro a b ha hb hdig
    have hda : ∀ c ∈ a, c.isDigit = true := fun c hc => hdig c (List.mem_append_left b hc)
    have hdb : ∀ c ∈ b, c.isDigit = true := fun c hc => hdig c (List.mem_append_right a hc)
    have hne : String.mk (a ++ '.' :: b) ≠ "" := by
      intro h
      have h2 := congrArg String.data h
      simp at h2
    simp only [parse_valor_deferido]
    rw [if_neg hne]
    have hlist : (String.mk (a ++ '.' :: b)).toList = a ++ '.' :: b := rfl
    rw [hlist]
    have hR : removeRS (a ++ '.' :: b) = a ++ '.' :: b := by
      apply removeRS_of_not_mem
      intro hm
      rcases List.mem_append.mp hm with hm | hm
      · exact (digit_facts _ (hda _ hm)).1 rfl
      · rcases List.mem_cons.mp hm with heq | hm'
        · exact absurd heq (by decide)
        · exact (digit_facts _ (hdb _ hm')).1 rfl
    rw [hR, removeDots_append,
      removeDots_of_not_mem a (fun hm => (digit_facts _ (hda _ hm)).2.2.1 rfl)]
    have hdotb : removeDots ('.' :: b) = b := by
      simp only [removeDots, if_pos rfl]
      exact removeDots_of_not_mem b (fun hm => (digit_facts _ (hdb _ hm)).2.2.1 rfl)
    rw [hdotb]
    have hcomma : commaToDot (a ++ b) = a ++ b := by
      apply commaToDot_of_not_mem
      intro hm
      rcases List.mem_append.mp hm with hm | hm
      · exact (digit_facts _ (hda _ hm)).2.1 rfl
      · exact (digit_facts _ (hdb _ hm)).2.1 rfl
    rw [hcomma]
    have hstrip : pyStrip (a ++ b) = a ++ b := by
      apply pyStrip_of_no_space
      intro c hc
      rcases List.mem_append.mp hc with hm | hm
      · exact (digit_facts _ (hda _ hm)).2.2.2.2.2
      · exact (digit_facts _ (hdb _ hm)).2.2.2.2.2
    rw [hstrip]
    exact pyFloat_digits (a ++ b) (by simp [ha]) (fun c hc => by
      rcases List.mem_append.mp hc with hm | hm
      · exact hda _ hm
      · exact hdb _ hm)
  refine ⟨hgeral, ?_, ?_, by norm_num⟩
  · intro a b
    rw [natDigits_append]
    have h10 : ((10 : ℚ) ^ b.length) ≠ 0 := by positivity
    field_simp
  · have hs : ("1234.56" : String) = String.mk (['1', '2', '3', '4'] ++ '.' :: ['5', '6']) := by
      decide
    rw [hs, hgeral ['1', '2', '3', '4'] ['5', '6'] (by decide) (by decide) (by decide)]
    norm_num [show natDigits ['1', '2', '3', '4', '5', '6'] = 123456 from by decide]

/-- Witness for C10 at `a = "1234"`, `b = "56"`. -/
theorem valor_deferido_remove_pontos_spec_witness :
    (['1', '2', '3', '4'] : List Char) ≠ []
    ∧ (['5', '6'] : List Char) ≠ []
    ∧ (∀ c ∈ (['1', '2', '3', '4'] ++ ['5', '6'] : List Char), c.isDigit = true)
    ∧ parse_valor_deferido (some (String.mk (['1', '2', '3', '4'] ++ '.' :: ['5', '6'])))
        = some ((natDigits (['1', '2', '3', '4'] ++ ['5', '6']) : ℚ)) :=
  ⟨by decide, by decide, by decide,
    valor_deferido_remove_pontos_spec.1 ['1', '2', '3', '4'] ['5', '6']
      (by decide) (by decide) (by decide)⟩

/-- C3 counterexample: the Persistence Mapper's monetary path (worker.py
    167-187) does not clean locale-formatted text — `float("R$ 1.234,56")`
    raises and the caught exception stores `None`, not `1234.56`. -/
theorem valor_causa_nao_limpa_moeda :
    (montarValorCausa valorCausaMoeda).valor = none
    ∧ (montarValorCausa valorCausaMoeda).valor ≠ some ((123456 : ℚ) / 100) := by
  have h : (montarValorCausa valorCausaMoeda).valor = none := by decide
  exact ⟨h, by rw [h]; exact fun hx => Option.noConfusion hx⟩

/-- C3 (amended): monetary parsing never raises, storing `none` for
    unparseable text, but only the supplementary-upload path
    (`valor_deferido`, main.py 240-248) cleans locale formatting:
    there `"R$ 1.234,56"` parses to `1234.56` and `"abc"` parses to `none`.
    The Persistence Mapper's `valor_causa` path (worker.py 167-187) applies
    a plain `float`: `"1234.56"` parses, while the locale-formatted
    `"R$ 1.234,56"` (and `"abc"`) store `none`. -/
theorem parse_valores_monetarios_spec (v : ValorCausaData) :
    (montarValorCausa v).valor = valor_causa_float v.valor
    ∧ parse_valor_deferido (some "R$ 1.234,56") = some ((123456 : ℚ) / 100)
    ∧ parse_valor_deferido (some "abc") = none
    ∧ valor_causa_float (some "1234.56") = some ((123456 : ℚ) / 100)
    ∧ valor_causa_float (some "abc") = none
    ∧ valor_causa_float (some "R$ 1.234,56") = none := by
  refine ⟨rfl, ?_, by decide, ?_, by decide, by decide⟩
  · have hclean : pyStrip (commaToDot (removeDots (removeRS ("R$ 1.234,56".toList))))
        = ['1', '2', '3', '4'] ++ '.' :: ['5', '6'] := by decide
    simp only [parse_valor_deferido]
    rw [if_neg (by decide : ¬("R$ 1.234,56" : String) = ""), hclean,
      pyFloat_digits_dot _ _ (by decide) (by decide) (by decide)]
    norm_num [show natDigits ['1', '2', '3', '4'] = 1234 from by decide,
      show natDigits ['5', '6'] = 56 from by decide]
  · simp only [valor_causa_float]
    rw [if_neg (by decide : ¬("1234.56" : String) = "")]
    have hl : ("1234.56" : String).toList = ['1', '2', '3', '4'] ++ '.' :: ['5', '6'] := by
      decide
    rw [hl, pyFloat_digits_dot _ _ (by decide) (by decide) (by decide)]
    norm_num [show natDigits ['1', '2', '3', '4'] = 1234 from by decide,
      show natDigits ['5', '6'] = 56 from by decide]

/-! ## Date-field coercion (claim C6) -/

/-- C6 counterexample: an empty-string date field is falsy in Python, so the
    coercion block (worker.py 30-35) is skipped and the raw `""` — not
    `None` — is handed to the `Date` column. -/
theorem coerce_date_string_vazia :
    (montarProcesso processoDataVazia).data_inicio = DateVal.raw ""
    ∧ DateVal.raw "" ≠ DateVal.null :=
  ⟨rfl, by decide⟩

/-- C6 (amended): the date coercion of the Persistence Mapper (worker.py
    30-49) is a total function of the field text — for every nonempty
    string it stores either a parsed date or null, never raising (the
    failure is swallowed silently, not logged); `"2023-05-10"` parses to
    2023-05-10 and the malformed `"10/2023/05"` stores null.  (For the
    empty string the coercion is skipped and the raw string is passed
    through — see the counterexample.) -/
theorem coerce_date_spec (d : ProcessoData) (s : String) (h : d.data_inicio = some s) :
    (montarProcesso d).data_inicio = coerce_date_Ymd (some s)
    ∧ (s ≠ "" → (montarProcesso d).data_inicio = DateVal.null
        ∨ ∃ dt, (montarProcesso d).data_inicio = DateVal.date dt)
    ∧ coerce_date_Ymd (some "2023-05-10") = DateVal.date ⟨2023, 5, 10⟩
    ∧ coerce_date_Ymd (some "10/2023/05") = DateVal.null := by
  have h1 : (montarProcesso d).data_inicio = coerce_date_Ymd d.data_inicio := rfl
  refine ⟨by rw [h1, h], ?_, by decide, by decide⟩
  intro hne
  rw [h1, h]
  cases hst : strptime_Ymd s with
  | none => left; simp [coerce_date_Ymd, hne, hst]
  | some dt => right; exact ⟨dt, by simp [coerce_date_Ymd, hne, hst]⟩

/-- Witness for C6 at a record whose `data_inicio` is `"2023-05-10"`. -/
theorem coerce_date_spec_witness :
    processoDataIso.data_inicio = some "2023-05-10"
    ∧ ((montarProcesso processoDataIso).data_inicio = coerce_date_Ymd (some "2023-05-10")
      ∧ (("2023-05-10" : String) ≠ "" →
          (montarProcesso processoDataIso).data_inicio = DateVal.null
          ∨ ∃ dt, (montarProcesso processoDataIso).data_inicio = DateVal.date dt)
      ∧ coerce_date_Ymd (some "2023-05-10") = DateVal.date ⟨2023, 5, 10⟩
      ∧ coerce_date_Ymd (some "10/2023/05") = DateVal.null) :=
  ⟨rfl, coerce_date_spec processoDataIso "2023-05-10" rfl⟩

/-! ## The persistence loop and the batch orchestrator (claims C1, C2, C7, C8) -/

/-- The persistence loop distributes over list concatenation: results are
    handled strictly left to right, each starting from the store the
    previous one left behind. -/
lemma persistirResultados_append (store : Store) (r1 r2 : List ResultadoFetch) :
    persistirResultados store (r1 ++ r2)
      = ((persistirResultados (persistirResultados store r1).1 r2).1,
         (persistirResultados store r1).2
           ++ (persistirResultados (persistirResultados store r1).1 r2).2) := by
  induction r1 generalizing store with
  | nil => simp [persistirResultados]
  | cons r rest ih =>
      cases r with
      | error e =>
          simp only [List.cons_append, persistirResultados]
          exact ih store
      | ok od =>
          cases od with
          | none =>
              simp only [List.cons_append, persistirResultados]
              exact ih store
          | some d =>
              simp only [List.cons_append, persistirResultados, List.append_eq]
              rw [ih (salvarComRollback store d)]

/-- A case number present in the store stays present after one
    rolled-back-or-committed `salvar_processo` call. -/
lemma salvarComRollback_mono (store : Store) (d : ProcessoData) (n : String)
    (h : containsCnj store n = true) :
    containsCnj (salvarComRollback store d) n = true := by
  unfold salvarComRollback salvar_processo
  cases d.numero_cnj with
  | none => exact h
  | some m =>
      by_cases hm : containsCnj store m = true
      · simp [hm, h]
      · have hm' : containsCnj store m = false := by simpa using hm
        simp only [hm', Bool.false_eq_true, if_false]
        unfold containsCnj at h ⊢
        rw [List.any_append]
        simp [h]

/-- A case number present in the store stays present through the whole
    persistence loop. -/
lemma persistir_mono (rs : List ResultadoFetch) (store : Store) (n : String)
    (h : containsCnj store n = true) :
    containsCnj (persistirResultados store rs).1 n = true := by
  induction rs generalizing store with
  | nil => simpa [persistirResultados]
  | cons r rest ih =>
      cases r with
      | error e => simpa [persistirResultados] using ih store h
      | ok od =>
          cases od with
          | none => simpa [persistirResultados] using ih store h
          | some d =>
              simp only [persistirResultados]
              exact ih _ (salvarComRollback_mono store d n h)

/-- C1: partial-failure isolation in the Orchestrator's persistence loop
    (worker.py 272-281).  If persisting a record raises — here, the
    `KeyError` of worker.py line 25 — that record's transaction is rolled
    back and contributes nothing: the final store is exactly the store
    obtained by running the remaining results from the pre-failure store,
    and every case committed before the failure is still committed at the
    end.  No exception escapes the loop: `persistirResultados` is a total
    function into `Store × List Evento`. -/
theorem processar_lote_isola_falha (store : Store) (r1 r2 : List ResultadoFetch)
    (bad : ProcessoData)
    (hbad : ∃ e, salvar_processo (persistirResultados store r1).1 bad
        = Except.error e) :
    (persistirResultados store (r1 ++ Except.ok (some bad) :: r2)).1
      = (persistirResultados (persistirResultados store r1).1 r2).1
    ∧ (∀ n, containsCnj (persistirResultados store r1).1 n = true →
        containsCnj (persistirResultados store (r1 ++ Except.ok (some bad) :: r2)).1 n
          = true) := by
  obtain ⟨e, he⟩ := hbad
  have hroll : salvarComRollback (persistirResultados store r1).1 bad
      = (persistirResultados store r1).1 := by
    unfold salvarComRollback
    rw [he]
  have happ := persistirResultados_append store r1 (Except.ok (some bad) :: r2)
  have hstep : (persistirResultados (persistirResultados store r1).1
      (Except.ok (some bad) :: r2)).1
      = (persistirResultados (persistirResultados store r1).1 r2).1 := by
    simp only [persistirResultados, hroll]
  constructor
  · rw [happ, hstep]
  · intro n hn
    rw [happ, hstep]
    exact persistir_mono r2 _ n hn

/-- Witness for C1: a chunk of five results in which record #3 lacks its
    `numero_cnj` key and raises; records #1, #2, #4, #5 are committed. -/
theorem processar_lote_isola_falha_witness :
    (∃ e, salvar_processo (persistirResultados []
        [Except.ok (some (demoProcesso "1")), Except.ok (some (demoProcesso "2"))]).1
        processoSemCnj = Except.error e)
    ∧ ((persistirResultados []
          ([Except.ok (some (demoProcesso "1")), Except.ok (some (demoProcesso "2"))]
            ++ Except.ok (some processoSemCnj)
              :: [Except.ok (some (demoProcesso "4")), Except.ok (some (demoProcesso "5"))])).1
        = (persistirResultados (persistirResultados []
            [Except.ok (some (demoProcesso "1")), Except.ok (some (demoProcesso "2"))]).1
            [Except.ok (some (demoProcesso "4")), Except.ok (some (demoProcesso "5"))]).1
      ∧ (∀ n, containsCnj (persistirResultados []
            [Except.ok (some (demoProcesso "1")), Except.ok (some (demoProcesso "2"))]).1 n
              = true →
          containsCnj (persistirResultados []
            ([Except.ok (some (demoProcesso "1")), Except.ok (some (demoProcesso "2"))]
              ++ Except.ok (some processoSemCnj)
                :: [Except.ok (some (demoProcesso "4")), Except.ok (some (demoProcesso "5"))])).1 n
            = true)) :=
  ⟨⟨_, rfl⟩, processar_lote_isola_falha _ _ _ _ ⟨_, rfl⟩⟩

/-- A case number is found by the lookup iff at least one stored row
    carries it. -/
lemma containsCnj_iff_count (store : Store) (n : String) :
    containsCnj store n = true ↔ 1 ≤ countCnj store n := by
  unfold containsCnj countCnj
  rw [List.any_eq_true]
  constructor
  · rintro ⟨p, hp, hpn⟩
    exact List.countP_pos_iff.mpr ⟨p, hp, hpn⟩
  · intro h
    obtain ⟨p, hp, hpn⟩ := List.countP_pos_iff.mp h
    exact ⟨p, hp, hpn⟩

/-- C2: `salvar_processo` (worker.py 23-256) is idempotent.  For every
    record carrying a `numero_cnj` and every store respecting the unique
    key, the first call succeeds, the second call is a no-op returning the
    very same store — nothing is overwritten and no child entity of the
    stored tree is duplicated — and exactly one Case with that number is
    stored; the unique-key invariant is preserved. -/
theorem salvar_processo_idempotente (store : Store) (data : ProcessoData) (n : String)
    (hwf : ∀ m, countCnj store m ≤ 1) (hn : data.numero_cnj = some n) :
    ∃ s', salvar_processo store data = Except.ok s'
      ∧ salvar_processo s' data = Except.ok s'
      ∧ countCnj s' n = 1
      ∧ (∀ m, countCnj s' m ≤ 1) := by
  have hmp : (montarProcesso data).numero_cnj = some n := by
    rw [show (montarProcesso data).numero_cnj = data.numero_cnj from rfl, hn]
  by_cases h : containsCnj store n = true
  · refine ⟨store, ?_, ?_, ?_, hwf⟩
    · simp [salvar_processo, hn, h]
    · simp [salvar_processo, hn, h]
    · exact le_antisymm (hwf n) ((containsCnj_iff_count store n).mp h)
  · have hfalse : containsCnj store n = false := by simpa using h
    have hzero : countCnj store n = 0 := by
      by_contra hz
      exact h ((containsCnj_iff_count store n).mpr (by omega))
    have hone : List.countP (fun p => p.numero_cnj == some n) [montarProcesso data] = 1 := by
      simp [List.countP_cons, hmp]
    refine ⟨store ++ [montarProcesso data], ?_, ?_, ?_, ?_⟩
    · simp [salvar_processo, hn, hfalse]
    · have hcontains : containsCnj (store ++ [montarProcesso data]) n = true := by
        unfold containsCnj
        rw [List.any_append]
        simp [hmp]
      simp [salvar_processo, hn, hcontains]
    · unfold countCnj
      rw [List.countP_append]
      rw [show List.countP (fun p => p.numero_cnj == some n) store = countCnj store n from rfl,
        hzero, hone]
    · intro m
      unfold countCnj
      rw [List.countP_append]
      by_cases hm : m = n
      · subst hm
        rw [show List.countP (fun p => p.numero_cnj == some m) store = countCnj store m from rfl,
          hzero, hone]
      · have hzero2 : List.countP (fun p => p.numero_cnj == some m) [montarProcesso data] = 0 := by
          simp [List.countP_cons, hmp, Ne.symm hm]
        rw [hzero2]
        simpa using hwf m

/-- Witness for C2 at the empty store and a minimal record. -/
theorem salvar_processo_idempotente_witness :
    (∀ m, countCnj [] m ≤ 1)
    ∧ (demoProcesso "X").numero_cnj = some "X"
    ∧ ∃ s', salvar_processo [] (demoProcesso "X") = Except.ok s'
      ∧ salvar_processo s' (demoProcesso "X") = Except.ok s'
      ∧ countCnj s' "X" = 1
      ∧ (∀ m, countCnj s' m ≤ 1) :=
  ⟨fun m => by simp [countCnj], rfl,
    salvar_processo_idempotente [] (demoProcesso "X") "X"
      (fun m => by simp [countCnj]) rfl⟩

/-- Every event emitted by the persistence loop is a persist event. -/
lemma persistir_evs (rs : List ResultadoFetch) (store : Store) :
    ∀ e ∈ (persistirResultados store rs).2, e.ehPersist = true := by
  induction rs generalizing store with
  | nil => simp [persistirResultados]
  | cons r rest ih =>
      cases r with
      | error e => simpa [persistirResultados] using ih store
      | ok od =>
          cases od with
          | none => simpa [persistirResultados] using ih store
          | some d =>
              simp only [persistirResultados]
              intro e he
              rcases List.mem_cons.mp he with rfl | he'
              · rfl
              · exact ih _ e he'

/-- Every fetch event in the orchestrator's trace names a number of some
    batch. -/
lemma fetch_mem (oracle : String → ResultadoFetch) (batches : List (List String))
    (store : Store) (m : String)
    (h : Evento.fetch m ∈ (processarBatches oracle store batches).2) :
    ∃ b ∈ batches, m ∈ b := by
  induction batches generalizing store with
  | nil => simp [processarBatches] at h
  | cons batch rest ih =>
      simp only [processarBatches, List.mem_append] at h
      rcases h with (h | h) | h
      · obtain ⟨x, hx, hf⟩ := List.mem_map.mp h
        obtain rfl : x = m := by
          injection hf
        exact ⟨batch, List.mem_cons_self _ _, hx⟩
      · have := persistir_evs (batch.map oracle) store _ h
        simp [Evento.ehPersist] at this
      · obtain ⟨b, hb, hmb⟩ := ih _ h
        exact ⟨b, List.mem_cons_of_mem _ hb, hmb⟩

/-- Every chunk produced by the slicing loop is drawn from the input list. -/
lemma chunks_subset {α : Type} (lst : List α) (B : ℕ) (b : List α)
    (hb : b ∈ chunks lst B) : ∀ x ∈ b, x ∈ lst := by
  unfold chunks at hb
  obtain ⟨k, _, rfl⟩ := List.mem_map.mp hb
  intro x hx
  exact List.drop_subset _ _ (List.take_subset _ _ hx)

/-- A number filtered out by the pre-filter is not in the store. -/
lemma mem_filtrarExistentes (store : Store) (csv : List String) (m : String)
    (hm : m ∈ filtrarExistentes store csv) : containsCnj store m = false := by
  unfold filtrarExistentes at hm
  obtain ⟨hcsv, hpred⟩ := List.mem_filter.mp hm
  by_contra h
  have hmem : containsCnj store m = true := by
    cases hc : containsCnj store m
    · exact absurd hc h
    · rfl
  have hf : m ∈ csv.filter (fun cnj => containsCnj store cnj) :=
    List.mem_filter.mpr ⟨hcsv, hmem⟩
  have hc : (csv.filter (fun cnj => containsCnj store cnj)).contains m = true := by
    show (csv.filter (fun cnj => containsCnj store cnj)).elem m = true
    exact List.elem_iff.mpr hf
  simp [hc] at hpred
  rcases hpred with h1 | h1
  · exact h1 hcsv
  · rw [h1] at hmem
    exact Bool.noConfusion hmem

/-- A `salvar_processo` call (with rollback) for any record never adds a
    row for a case number that is already stored: the existing-number count
    is untouched. -/
lemma salvarComRollback_count (store : Store) (d : ProcessoData) (n : String)
    (h : containsCnj store n = true) :
    countCnj (salvarComRollback store d) n = countCnj store n := by
  unfold salvarComRollback salvar_processo
  cases hd : d.numero_cnj with
  | none => rfl
  | some m =>
      by_cases hm : containsCnj store m = true
      · simp [hm]
      · have hm' : containsCnj store m = false := by simpa using hm
        have hmn : m ≠ n := by
          rintro rfl
          rw [hm'] at h
          exact absurd h (by simp)
        have hmp : (montarProcesso d).numero_cnj = some m := by
          rw [show (montarProcesso d).numero_cnj = d.numero_cnj from rfl, hd]
        simp only [hm', Bool.false_eq_true, if_false]
        unfold countCnj
        rw [List.countP_append]
        have : List.countP (fun p => p.numero_cnj == some n) [montarProcesso d] = 0 := by
          simp [List.countP_cons, hmp, hmn]
        rw [this]
        omega

/-- The persistence loop never adds a row for an already-stored number. -/
lemma persistir_count (rs : List ResultadoFetch) (store : Store) (n : String)
    (h : containsCnj store n = true) :
    countCnj (persistirResultados store rs).1 n = countCnj store n := by
  induction rs generalizing store with
  | nil => simp [persistirResultados]
  | cons r rest ih =>
      cases r with
      | error e => simpa [persistirResultados] using ih store h
      | ok od =>
          cases od with
          | none => simpa [persistirResultados] using ih store h
          | some d =>
              simp only [persistirResultados]
              rw [ih _ (salvarComRollback_mono store d n h),
                salvarComRollback_count store d n h]

/-- The whole batch loop never adds a row for an already-stored number. -/
lemma batches_count (oracle : String → ResultadoFetch) (batches : List (List String))
    (store : Store) (n : String) (h : containsCnj store n = true) :
    countCnj (processarBatches oracle store batches).1 n = countCnj store n := by
  induction batches generalizing store with
  | nil => simp [processarBatches]
  | cons batch rest ih =>
      simp only [processarBatches]
      rw [ih _ (persistir_mono (batch.map oracle) store n h),
        persistir_count (batch.map oracle) store n h]

/-- C7: for a case number already stored when an ingestion request starts,
    the upload endpoint's pre-filter (main.py 112-120) removes it, the
    pipeline issues no fetch for it, and no write for it is performed — its
    stored-Case count is unchanged, so a Case exists at most once per
    `numero_cnj` across the whole pipeline. -/
theorem upload_filtra_existentes_spec (store : Store) (csv : List String)
    (oracle : String → ResultadoFetch) (B : ℕ) (n : String)
    (hn : containsCnj store n = true) :
    n ∉ filtrarExistentes store csv
    ∧ (∀ e ∈ (processarLoteCom oracle B store (filtrarExistentes store csv)).2,
        e ≠ Evento.fetch n)
    ∧ countCnj (processarLoteCom oracle B store (filtrarExistentes store csv)).1 n
        = countCnj store n := by
  refine ⟨?_, ?_, ?_⟩
  · intro hm
    rw [mem_filtrarExistentes store csv n hm] at hn
    exact absurd hn (by simp)
  · intro e he heq
    subst heq
    obtain ⟨b, hb, hmb⟩ := fetch_mem oracle _ store n he
    have hnf : n ∈ filtrarExistentes store csv :=
      chunks_subset _ B b hb n hmb
    rw [mem_filtrarExistentes store csv n hnf] at hn
    exact absurd hn (by simp)
  · exact batches_count oracle _ store n hn

/-- Witness for C7: store pre-seeded with number `"A"`, upload containing
    `"A"` and `"B"`. -/
theorem upload_filtra_existentes_spec_witness :
    containsCnj [processoArmazenado] "A" = true
    ∧ ("A" ∉ filtrarExistentes [processoArmazenado] ["A", "B"]
      ∧ (∀ e ∈ (processarLoteCom oracleDemo 2 [processoArmazenado]
            (filtrarExistentes [processoArmazenado] ["A", "B"])).2,
          e ≠ Evento.fetch "A")
      ∧ countCnj (processarLoteCom oracleDemo 2 [processoArmazenado]
            (filtrarExistentes [processoArmazenado] ["A", "B"])).1 "A"
          = countCnj [processoArmazenado] "A") :=
  ⟨rfl, upload_filtra_existentes_spec [processoArmazenado] ["A", "B"] oracleDemo 2 "A" rfl⟩

/-- The trace of the batch loop splits per batch into the batch's fetch
    events (in input order) followed by persist events only. -/
lemma processarBatches_trace (oracle : String → ResultadoFetch)
    (batches : List (List String)) (store : Store) :
    ∃ pss : List (List Evento),
      pss.length = batches.length
      ∧ (processarBatches oracle store batches).2
          = (List.zipWith (fun (batch : List String) ps => batch.map Evento.fetch ++ ps)
              batches pss).flatten
      ∧ ∀ ps ∈ pss, ∀ e ∈ ps, e.ehPersist = true := by
  induction batches generalizing store with
  | nil => exact ⟨[], rfl, rfl, by simp⟩
  | cons batch rest ih =>
      obtain ⟨pss, hlen, htrace, hpers⟩ := ih (persistirResultados store (batch.map oracle)).1
      refine ⟨(persistirResultados store (batch.map oracle)).2 :: pss, by simp [hlen], ?_, ?_⟩
      · simp only [processarBatches, List.zipWith_cons_cons, List.flatten_cons, htrace]
      · intro ps hps
        rcases List.mem_cons.mp hps with rfl | hps'
        · exact persistir_evs _ _
        · exact hpers ps hps'

/-- C8: the Orchestrator (worker.py 264-281) processes chunks in strict
    input order and never interleaves phases across chunks: its event trace
    is the concatenation, chunk by chunk in order, of that chunk's fetch
    events (all of them, in order) followed only by that chunk's persist
    events — so chunk N is fully fetched before its persistence phase and
    fully persisted before any fetch of chunk N+1.  In particular for the
    input `["001", "002", "003"]` with chunk size 2, both fetches of
    `["001", "002"]` precede their persists, which precede the fetch of
    `"003"`. -/
theorem processar_lote_ordem_fases :
    (∀ (oracle : String → ResultadoFetch) (store : Store) (B : ℕ)
        (numeros : List String),
      ∃ pss : List (List Evento),
        pss.length = (chunks numeros B).length
        ∧ (processarLoteCom oracle B store numeros).2
            = (List.zipWith (fun batch ps => batch.map Evento.fetch ++ ps)
                (chunks numeros B) pss).flatten
        ∧ ∀ ps ∈ pss, ∀ e ∈ ps, e.ehPersist = true)
    ∧ (processarLoteCom oracleDemo 2 [] ["001", "002", "003"]).2
        = [Evento.fetch "001", Evento.fetch "002", Evento.persist (some "001"),
           Evento.persist (some "002"), Evento.fetch "003", Evento.persist (some "003")] :=
  ⟨fun oracle store B numeros => processarBatches_trace oracle (chunks numeros B) store,
    by decide⟩

/-- Witness for C8: the spec's end-to-end scenario, instantiated. -/
theorem processar_lote_ordem_fases_witness :
    ∃ pss : List (List Evento),
      pss.length = (chunks ["001", "002", "003"] 2).length
      ∧ (processarLoteCom oracleDemo 2 [] ["001", "002", "003"]).2
          = (List.zipWith (fun batch ps => batch.map Evento.fetch ++ ps)
              (chunks ["001", "002", "003"] 2) pss).flatten
      ∧ ∀ ps ∈ pss, ∀ e ∈ ps, e.ehPersist = true :=
  processar_lote_ordem_fases.1 oracleDemo [] 2 ["001", "002", "003"]

/-- Witness for C3 (amended), instantiated at the locale-formatted node. -/
theorem parse_valores_monetarios_spec_witness :
    (montarValorCausa valorCausaMoeda).valor = valor_causa_float valorCausaMoeda.valor
    ∧ parse_valor_deferido (some "R$ 1.234,56") = some ((123456 : ℚ) / 100)
    ∧ parse_valor_deferido (some "abc") = none
    ∧ valor_causa_float (some "1234.56") = some ((123456 : ℚ) / 100)
    ∧ valor_causa_float (some "abc") = none
    ∧ valor_causa_float (some "R$ 1.234,56") = none :=
  parse_valores_monetarios_spec valorCausaMoeda

end RecallApis
